import Mathlib

/-!
Shallow embedding of the live-room coordination logic of the repository:
the identity hash and reverse uid table, the active-speaker handler, the
audio-room snapshot callback, the publish/unpublish reconciliation effect,
the moderation permission predicate, the join sequences, and the
token-issuance HTTP handler (src/api/proxy.ts).

JavaScript numbers are modelled as `Int` with explicit 32-bit wrapping where
the source forces it (`|= 0`, `<<`); strings as Lean `String` (char codes via
`Char.toNat`, matching `charCodeAt` on basic-plane text); `Map` as its lookup
view `Int → Option String`; nullable values as `Option`; and the JavaScript
falsy test on strings (`undefined`, `null` and `""` are falsy) explicitly.
-/

/-- JavaScript 32-bit signed wrap (the effect of `x |= 0` and of the implicit
int32 conversion in `<<`): reduce mod 2^32 into the range [-2^31, 2^31). -/
def toInt32 (n : Int) : Int :=
  let m := n % 4294967296
  if m < 2147483648 then m else m - 4294967296

/-- One step of the rolling hash in `stringToNumericUid`
(LiveVideoRoomScreen.tsx lines 18-26): `hash = ((hash << 5) - hash) + char`
followed by `hash |= 0`. -/
def hashStep (h : Int) (c : Nat) : Int :=
  toInt32 (toInt32 (h * 32) - h + c)

/-- `stringToNumericUid` (LiveVideoRoomScreen.tsx lines 18-26): the rolling
hash over the char codes of the identity string, then `Math.abs`. -/
def stringToNumericUid (s : String) : Int :=
  |s.data.foldl (fun h c => hashStep h c.toNat) 0|

/-- Lookup view of `Map.set`: the updated map answers the new key with the
new value and every other key as before (later `set` wins, as in JS). -/
def mapSet (m : Int → Option String) (k : Int) (v : String) : Int → Option String :=
  fun q => if q = k then some v else m q

/-- Lookup view of `new Map()`. -/
def emptyUidMap : Int → Option String := fun _ => none

/-- Rebuild of the reverse uid → identity table from a snapshot
(LiveVideoRoomScreen.tsx lines 210-227): `newMap.set(stringToNumericUid(p.id), p.id)`
for each participant in order. -/
def rebuildUidMap (ps : List String) : Int → Option String :=
  ps.foldl (fun m p => mapSet m (stringToNumericUid p) p) emptyUidMap

/-- A volume sample as delivered by the transport: numeric uid and level. -/
structure VolumeSample where
  uid : Int
  level : Int
deriving DecidableEq

/-- `volumes.reduce((max, current) => current.level > max.level ? current : max)`
with no initial value: the accumulator starts at the first element. -/
def maxSample (v : VolumeSample) (vs : List VolumeSample) : VolumeSample :=
  vs.foldl (fun mx cur => if cur.level > mx.level then cur else mx) v

/-- The JS expression `x || null` on a `string | undefined` value: `undefined`
and the empty string are falsy, so both become `null`. -/
def orNull (o : Option String) : Option String :=
  match o with
  | some s => if s = "" then none else some s
  | none => none

/-- `handleVolumeIndicator` (LiveVideoRoomScreen.tsx lines 142-155): empty
batch gives no active speaker; otherwise take the max-level sample and, if its
level exceeds 5, look its uid up in the reverse table
(`uidMap.get(speakerNumericUid) || null`), else give no active speaker.
Returns the value passed to `setActiveSpeakerId`. -/
def handleVolumeIndicator (uidMap : Int → Option String) (volumes : List VolumeSample) :
    Option String :=
  match volumes with
  | [] => none
  | v :: vs =>
    let m := maxSample v vs
    if m.level > 5 then orNull (uidMap m.uid) else none

/-- The audio-room snapshot shape as used by LiveRoomScreen.tsx: host id,
speaker/listener id lists, and the optional sets (modelled default-empty). -/
structure AudioRoom where
  host : String
  speakers : List String
  listeners : List String
  coHosts : List String
  raisedHands : List String
  mutedSpeakers : List String
  kickedUserIds : List String
deriving DecidableEq

/-- Observable effects of the `listenToAudioRoom` callback. -/
inductive RoomEff where
  | setRoom (r : AudioRoom)
  | tts (msg : String)
  | goBack
  | setLoadingFalse
deriving DecidableEq

/-- Effect trace of the `listenToAudioRoom` callback (LiveRoomScreen.tsx
lines 147-160): a kicked local user gets the message and `onGoBack()` and the
callback returns before `setRoom` and `setIsLoading(false)`; otherwise the
snapshot is stored; a null delivery means the room ended. -/
def onRoomDelivery (localId : String) (delivered : Option AudioRoom) : List RoomEff :=
  match delivered with
  | some r =>
    if localId ∈ r.kickedUserIds then
      [RoomEff.tts "You have been removed from this room.", RoomEff.goBack]
    else
      [RoomEff.setRoom r, RoomEff.setLoadingFalse]
  | none =>
    [RoomEff.tts "The room has ended.", RoomEff.goBack, RoomEff.setLoadingFalse]

/-- The held `room` state after the callback runs: `setRoom(roomDetails)`
replaces it unconditionally on a non-kicked delivery; the kicked and the
room-ended branches leave the held state untouched (they navigate away). -/
def roomAfterDelivery (localId : String) (held : Option AudioRoom)
    (delivered : Option AudioRoom) : Option AudioRoom :=
  match delivered with
  | some r => if localId ∈ r.kickedUserIds then held else some r
  | none => held

/-- Transport calls the publish reconciliation effect can issue. -/
inductive PubCall where
  | publish
  | unpublish
deriving DecidableEq

/-- The `publishAudio` effect (LiveRoomScreen.tsx lines 217-236): if the local
user is a speaker and no local track exists, create one and publish it (on
microphone failure the track stays absent and nothing is published); if the
user is not a speaker and a track exists, unpublish and release it; otherwise
do nothing. `micOk` is whether `createMicrophoneAudioTrack` succeeds. Returns
(whether a track exists afterwards, transport calls issued). -/
def publishAudio (micOk isSpeaker hasTrack : Bool) : Bool × List PubCall :=
  if isSpeaker && !hasTrack then
    if micOk then (true, [PubCall.publish]) else (false, [])
  else if !isSpeaker && hasTrack then
    (false, [PubCall.unpublish])
  else
    (hasTrack, [])

/-- `canManageTarget` (LiveRoomScreen.tsx line 37):
`isHost || (isCoHost && !room.coHosts?.some(c => c.id === targetUser.id)
&& room.host.id !== targetUser.id)`. -/
def canManageTarget (room : AudioRoom) (currentUserId targetUserId : String) : Bool :=
  decide (room.host = currentUserId) ||
    (decide (currentUserId ∈ room.coHosts) &&
      !(decide (targetUserId ∈ room.coHosts)) &&
      !(decide (room.host = targetUserId)))

/-- Observable steps of the join sequences. -/
inductive JoinEff where
  | requestToken
  | joinCall
  | enableVolume
  | createTracks
  | publishTracks
  | tts (msg : String)
  | goBack
deriving DecidableEq

/-- JS falsy test on the token value (`if (!token)`): `null`/`undefined` and
the empty string fail it. -/
def tokenFalsy (token : Option String) : Bool :=
  match token with
  | none => true
  | some t => t == ""

/-- `joinAgora` (LiveRoomScreen.tsx lines 186-205) together with its `.catch`
handler: one token request; a falsy token surfaces a message and navigates
back; otherwise one `client.join` which on success enables the volume
indicator and on failure surfaces a message (UID_CONFLICT gets a dedicated
text) and navigates back. No branch repeats the token request or the join. -/
def joinAgora (token : Option String) (joinOk uidConflict : Bool) : List JoinEff :=
  JoinEff.requestToken ::
    (if tokenFalsy token then
      [JoinEff.tts "Could not get audio token. Please try again.", JoinEff.goBack]
    else
      JoinEff.joinCall ::
        (if joinOk then
          [JoinEff.enableVolume]
        else
          [JoinEff.tts (if uidConflict then
              "Error: You might already be in this room in another tab. Please close it and try again."
            else
              "Could not connect to the audio room."), JoinEff.goBack]))

/-- `joinAndPublish` (LiveVideoRoomScreen.tsx lines 157-189): one token
request; a falsy token throws, join/track-creation/publish may fail, and the
single `catch` classifies the error into a user-facing message (`errMsg`) and
navigates back. No branch repeats the token request or the join. -/
def joinAndPublish (token : Option String) (joinOk tracksOk publishOk : Bool)
    (errMsg : String) : List JoinEff :=
  JoinEff.requestToken ::
    (if tokenFalsy token then
      [JoinEff.tts errMsg, JoinEff.goBack]
    else
      JoinEff.joinCall ::
        (if !joinOk then
          [JoinEff.tts errMsg, JoinEff.goBack]
        else
          JoinEff.createTracks ::
            (if !tracksOk then
              [JoinEff.tts errMsg, JoinEff.goBack]
            else
              JoinEff.publishTracks ::
                (if !publishOk then [JoinEff.tts errMsg, JoinEff.goBack] else []))))

/-- Recognizer for the token-request step (used to count attempts). -/
def isTokenReq : JoinEff → Bool
  | JoinEff.requestToken => true
  | _ => false

/-- Recognizer for the transport join step (used to count attempts). -/
def isJoinCall : JoinEff → Bool
  | JoinEff.joinCall => true
  | _ => false

/-- Recognizer for a surfaced user-facing message. -/
def isTts : JoinEff → Bool
  | JoinEff.tts _ => true
  | _ => false

/-- Number of token requests in an effect trace. -/
def numTokenRequests (l : List JoinEff) : Nat := (l.filter isTokenReq).length

/-- Number of transport join attempts in an effect trace. -/
def numJoinCalls (l : List JoinEff) : Nat := (l.filter isJoinCall).length

/-- The token-issuance request, as read by src/api/proxy.ts: the HTTP method
and the `channelName` and `uid` query parameters (`searchParams.get` yields
`null` for a missing parameter). -/
structure TokenRequest where
  method : String
  channelName : Option String
  uid : Option String
deriving DecidableEq

/-- Server-side environment of the endpoint: `AGORA_APP_ID` and
`AGORA_APP_CERTIFICATE` (unset modelled as `none`). -/
structure ServerEnv where
  appId : Option String
  appCertificate : Option String
deriving DecidableEq

/-- JS falsy test on a nullable string (`!x`): missing or empty fails. -/
def strFalsy : Option String → Bool
  | none => true
  | some s => s == ""

/-- Shape of the response body of the endpoint. -/
inductive TokenBody where
  | empty
  | errorMsg (msg : String)
  | rtcToken
deriving DecidableEq

/-- HTTP response of the endpoint: status and body shape. -/
structure TokenResponse where
  status : Nat
  body : TokenBody
deriving DecidableEq

/-- `parseInt(s, 10)`: skip leading whitespace, take an optional sign, then
consume leading decimal digits; `NaN` (here `none`) when no digit follows. -/
def parseInt10 (s : String) : Option Int :=
  let cs := s.data.dropWhile (fun c => c.isWhitespace)
  let signAndRest : Bool × List Char :=
    match cs with
    | '-' :: rest => (true, rest)
    | '+' :: rest => (false, rest)
    | _ => (false, cs)
  let digits := signAndRest.2.takeWhile (fun c => c.isDigit)
  if digits.isEmpty then none
  else
    let n : Nat := digits.foldl (fun acc c => acc * 10 + (c.toNat - 48)) 0
    some (if signAndRest.1 then -(n : Int) else (n : Int))

/-- The token-issuance handler (src/api/proxy.ts lines 7-87): OPTIONS
preflight gets 204; then falsy app credentials give 500; then a falsy
`channelName` or `uid` parameter gives 400; then an unparsable `uid` gives
400; otherwise the token is built (`buildOk` models whether
`RtcTokenBuilder.buildTokenWithUid` throws) yielding 200, or 500 from the
`catch`. Returns the response and whether a token was built. -/
def handler (env : ServerEnv) (req : TokenRequest) (buildOk : Bool) :
    TokenResponse × Bool :=
  if req.method == "OPTIONS" then
    (⟨204, TokenBody.empty⟩, false)
  else if strFalsy env.appId || strFalsy env.appCertificate then
    (⟨500, TokenBody.errorMsg "Agora credentials not configured on the server."⟩, false)
  else if strFalsy req.channelName || strFalsy req.uid then
    (⟨400, TokenBody.errorMsg "channelName and uid are required"⟩, false)
  else
    match parseInt10 (req.uid.getD "") with
    | none => (⟨400, TokenBody.errorMsg "uid must be an integer"⟩, false)
    | some _ =>
      if buildOk then
        (⟨200, TokenBody.rtcToken⟩, true)
      else
        (⟨500, TokenBody.errorMsg "Failed to generate Agora token"⟩, false)

/-- C1: applying the same snapshot twice is idempotent for the publish
reconciliation: whatever the microphone outcome, the pass running on the
second identical delivery issues no publish and no unpublish call; in
particular a speaker with an existing track keeps it with no new publish, and
a non-speaker with no track triggers no unpublish. -/
theorem publishAudio_idempotent :
    ∀ micOk isSpeaker hasTrack : Bool,
      (publishAudio micOk isSpeaker (publishAudio micOk isSpeaker hasTrack).1).2 = [] ∧
      publishAudio micOk true true = (true, []) ∧
      publishAudio micOk false false = (false, []) := by
  decide

/-- C2: a delivered snapshot whose kicked set contains the local identity
makes the callback surface the removal message and navigate back, with no
`setRoom` (the snapshot is not stored) and no other processing, and the held
room state is unchanged. -/
theorem kicked_snapshot_exits_without_processing (localId : String)
    (held : Option AudioRoom) (r : AudioRoom) (h : localId ∈ r.kickedUserIds) :
    onRoomDelivery localId (some r) =
      [RoomEff.tts "You have been removed from this room.", RoomEff.goBack] ∧
    RoomEff.goBack ∈ onRoomDelivery localId (some r) ∧
    (∀ s, RoomEff.setRoom s ∉ onRoomDelivery localId (some r)) ∧
    roomAfterDelivery localId held (some r) = held := by
  refine ⟨?_, ?_, ?_, ?_⟩
  · simp [onRoomDelivery, h]
  · simp [onRoomDelivery, h]
  · intro s
    simp [onRoomDelivery, h]
  · simp [roomAfterDelivery, h]

/-- Witness for C2 at a concrete kicked delivery. -/
theorem kicked_snapshot_exits_without_processing_witness :
    onRoomDelivery "u" (some ⟨"h", ["h"], ["u"], [], [], [], ["u"]⟩) =
      [RoomEff.tts "You have been removed from this room.", RoomEff.goBack] :=
  (kicked_snapshot_exits_without_processing "u" none
    ⟨"h", ["h"], ["u"], [], [], [], ["u"]⟩ (by decide)).1

/-- C3 counterexample: a single sample at level 50 whose uid IS present in the
reverse table (mapped to the empty-string identity) makes the handler emit
no identity rather than the mapped one, because `x || null` treats the empty
string as falsy. -/
theorem activeSpeaker_mapped_identity_counterexample :
    mapSet emptyUidMap 7 "" 7 = some "" ∧
    handleVolumeIndicator (mapSet emptyUidMap 7 "") [⟨7, 50⟩] = none ∧
    (none : Option String) ≠ some "" := by
  decide

/-- C3 amended: an empty batch yields none; a single sample at level 3 yields
none; and a single sample at level 50 whose uid is mapped to a NONEMPTY
identity in the reverse table yields that identity (an empty-string identity
is collapsed to none by the handler's falsy coalescing). -/
theorem activeSpeaker_three_cases (uidMap : Int → Option String) (u : Int)
    (id : String) (hmap : uidMap u = some id) (hne : id ≠ "") :
    handleVolumeIndicator uidMap [] = none ∧
    handleVolumeIndicator uidMap [⟨u, 3⟩] = none ∧
    handleVolumeIndicator uidMap [⟨u, 50⟩] = some id := by
  refine ⟨rfl, ?_, ?_⟩
  · simp [handleVolumeIndicator, maxSample]
  · simp [handleVolumeIndicator, maxSample, hmap, orNull, hne]

/-- Witness for the amended C3 at a concrete table and batch. -/
theorem activeSpeaker_three_cases_witness :
    handleVolumeIndicator (mapSet emptyUidMap 7 "alice") [] = none ∧
    handleVolumeIndicator (mapSet emptyUidMap 7 "alice") [⟨7, 3⟩] = none ∧
    handleVolumeIndicator (mapSet emptyUidMap 7 "alice") [⟨7, 50⟩] = some "alice" :=
  activeSpeaker_three_cases (mapSet emptyUidMap 7 "alice") 7 "alice"
    (by decide) (by decide)

/-- C4: when the max-level sample of a nonempty batch exceeds the threshold
but its uid has no entry in the reverse table, the handler emits none (and
in this total model there is no crash to have). -/
theorem activeSpeaker_unknown_uid_yields_none (uidMap : Int → Option String)
    (v : VolumeSample) (vs : List VolumeSample)
    (hlvl : (maxSample v vs).level > 5)
    (hmap : uidMap (maxSample v vs).uid = none) :
    handleVolumeIndicator uidMap (v :: vs) = none := by
  simp [handleVolumeIndicator, hlvl, hmap, orNull]

/-- Witness for C4 at a concrete unmapped loud sample. -/
theorem activeSpeaker_unknown_uid_yields_none_witness :
    handleVolumeIndicator emptyUidMap [⟨7, 50⟩] = none :=
  activeSpeaker_unknown_uid_yields_none emptyUidMap ⟨7, 50⟩ [] (by decide) rfl

/-- C5: the identity hash is deterministic (a pure function of the string,
with no ambient state in the embedding, so two applications agree) and its
result is always non-negative (`Math.abs`). -/
theorem stringToNumericUid_deterministic_nonneg (s : String) :
    stringToNumericUid s = stringToNumericUid s ∧ 0 ≤ stringToNumericUid s :=
  ⟨rfl, abs_nonneg _⟩

/-- Updating the table at a key makes that key answer the new value. -/
theorem mapSet_self (m : Int → Option String) (k : Int) (v : String) :
    mapSet m k v k = some v := by
  simp [mapSet]

/-- Updating the table at a key leaves every other key unchanged. -/
theorem mapSet_other (m : Int → Option String) (k q : Int) (v : String)
    (h : q ≠ k) : mapSet m k v q = m q := by
  simp [mapSet, h]

/-- Invariant of the rebuild loop: if no identity in the remaining list shares
`id`'s hash without being `id` itself, and `id` is either still to be
inserted or already answered by the accumulator, then after the loop the
table answers `id` at its hash. -/
theorem rebuild_loop_roundtrip (id : String) :
    ∀ (ps : List String) (m : Int → Option String),
      (∀ q ∈ ps, stringToNumericUid q = stringToNumericUid id → q = id) →
      (id ∈ ps ∨ m (stringToNumericUid id) = some id) →
      (ps.foldl (fun acc p => mapSet acc (stringToNumericUid p) p) m)
          (stringToNumericUid id) = some id := by
  intro ps
  induction ps with
  | nil =>
    intro m _ hbase
    rcases hbase with hmem | hm
    · exact absurd hmem (List.not_mem_nil id)
    · simpa using hm
  | cons p ps ih =>
    intro m hcoll hbase
    rw [List.foldl_cons]
    by_cases hpk : stringToNumericUid p = stringToNumericUid id
    · have hp : p = id := hcoll p (List.mem_cons_self p ps) hpk
      subst hp
      refine ih (mapSet m (stringToNumericUid p) p)
        (fun q hq hq2 => hcoll q (List.mem_cons_of_mem p hq) hq2) (Or.inr ?_)
      exact hpk ▸ mapSet_self m (stringToNumericUid p) p
    · refine ih (mapSet m (stringToNumericUid p) p)
        (fun q hq hq2 => hcoll q (List.mem_cons_of_mem p hq) hq2) ?_
      rcases hbase with hmem | hm
      · rcases List.mem_cons.mp hmem with heq | hmem'
        · subst heq
          exact absurd rfl hpk
        · exact Or.inl hmem'
      · exact Or.inr ((mapSet_other m (stringToNumericUid p)
          (stringToNumericUid id) p (fun h => hpk h.symm)).trans hm)

/-- C6 counterexample: the rolling hash collides ("Aa" and "BB" both hash to
2112), later `Map.set` wins, so after rebuilding from a snapshot listing both,
"Aa" does not round-trip: its uid resolves to "BB". -/
theorem uid_roundtrip_collision_counterexample :
    "Aa" ∈ ["Aa", "BB"] ∧
    stringToNumericUid "Aa" = stringToNumericUid "BB" ∧
    rebuildUidMap ["Aa", "BB"] (stringToNumericUid "Aa") = some "BB" ∧
    some "BB" ≠ some "Aa" := by
  decide

/-- C6 amended: every identity in the snapshot whose TransportUid is not
shared with a different listed identity round-trips through the rebuilt
reverse table back to itself. -/
theorem uid_roundtrip_of_unique_hash (ps : List String) (id : String)
    (hmem : id ∈ ps)
    (huniq : ∀ q ∈ ps, stringToNumericUid q = stringToNumericUid id → q = id) :
    rebuildUidMap ps (stringToNumericUid id) = some id :=
  rebuild_loop_roundtrip id ps emptyUidMap huniq (Or.inl hmem)

/-- Witness for the amended C6 at a concrete collision-free snapshot. -/
theorem uid_roundtrip_of_unique_hash_witness :
    rebuildUidMap ["Aa", "cc"] (stringToNumericUid "Aa") = some "Aa" :=
  uid_roundtrip_of_unique_hash ["Aa", "cc"] "Aa" (by decide) (by decide)

/-- C7: on a missing credential or a failed transport join, both join
sequences surface a user-facing message and navigate back, and neither
retries: the trace holds exactly one token request and at most one join. -/
theorem join_failure_is_terminal :
    (∀ (token : Option String) (joinOk uidConflict : Bool),
      token = none ∨ joinOk = false →
        numTokenRequests (joinAgora token joinOk uidConflict) = 1 ∧
        numJoinCalls (joinAgora token joinOk uidConflict) ≤ 1 ∧
        JoinEff.goBack ∈ joinAgora token joinOk uidConflict ∧
        (joinAgora token joinOk uidConflict).any isTts = true) ∧
    (∀ (token : Option String) (joinOk tracksOk publishOk : Bool) (errMsg : String),
      token = none ∨ joinOk = false →
        numTokenRequests (joinAndPublish token joinOk tracksOk publishOk errMsg) = 1 ∧
        numJoinCalls (joinAndPublish token joinOk tracksOk publishOk errMsg) ≤ 1 ∧
        JoinEff.goBack ∈ joinAndPublish token joinOk tracksOk publishOk errMsg ∧
        (joinAndPublish token joinOk tracksOk publishOk errMsg).any isTts = true) := by
  constructor
  · intro token joinOk uidConflict h
    rcases h with h | h
    · subst h
      simp [joinAgora, tokenFalsy, numTokenRequests, numJoinCalls,
        isTokenReq, isJoinCall, isTts, List.filter]
    · subst h
      rcases token with _ | t
      · simp [joinAgora, tokenFalsy, numTokenRequests, numJoinCalls,
          isTokenReq, isJoinCall, isTts, List.filter]
      · by_cases ht : t == ""
        <;> cases uidConflict
        <;> simp [joinAgora, tokenFalsy, ht, numTokenRequests, numJoinCalls,
              isTokenReq, isJoinCall, isTts, List.filter]
  · intro token joinOk tracksOk publishOk errMsg h
    rcases h with h | h
    · subst h
      simp [joinAndPublish, tokenFalsy, numTokenRequests, numJoinCalls,
        isTokenReq, isJoinCall, isTts, List.filter]
    · subst h
      rcases token with _ | t
      · simp [joinAndPublish, tokenFalsy, numTokenRequests, numJoinCalls,
          isTokenReq, isJoinCall, isTts, List.filter]
      · by_cases ht : t == ""
        <;> simp [joinAndPublish, tokenFalsy, ht, numTokenRequests, numJoinCalls,
              isTokenReq, isJoinCall, isTts, List.filter]

/-- Witness for C7 at a concrete failed join. -/
theorem join_failure_is_terminal_witness :
    numTokenRequests (joinAgora none true false) = 1 ∧
    JoinEff.goBack ∈ joinAndPublish (some "tok") false true true "err" :=
  ⟨(join_failure_is_terminal.1 none true false (Or.inl rfl)).1,
   (join_failure_is_terminal.2 (some "tok") false true true "err"
      (Or.inr rfl)).2.2.1⟩

/-- C8 counterexample: the snapshot callback keeps no version or timestamp —
`setRoom(roomDetails)` runs unconditionally — so delivering a newer snapshot
(speaker "a" promoted) and then the older one (speaker "a" still a listener)
leaves the OLDER snapshot as the held room state, reverting the role change. -/
theorem stale_snapshot_replaces_state :
    roomAfterDelivery "a"
        (roomAfterDelivery "a" none (some ⟨"h", ["h", "a"], [], [], [], [], []⟩))
        (some ⟨"h", ["h"], ["a"], [], [], [], []⟩) =
      some ⟨"h", ["h"], ["a"], [], [], [], []⟩ ∧
    (⟨"h", ["h"], ["a"], [], [], [], []⟩ : AudioRoom) ≠
      ⟨"h", ["h", "a"], [], [], [], [], []⟩ := by
  decide

/-- C8 amended: the Coordinator applies snapshots in delivery order with
last-delivered-wins semantics — every delivered non-null snapshot that does
not kick the local user replaces the held room state, with no staleness
check; in-order application therefore relies on the store delivering in
order. -/
theorem delivered_snapshot_always_replaces (localId : String)
    (held : Option AudioRoom) (r : AudioRoom)
    (h : localId ∉ r.kickedUserIds) :
    roomAfterDelivery localId held (some r) = some r := by
  simp [roomAfterDelivery, h]

/-- Witness for the amended C8 at a concrete delivery. -/
theorem delivered_snapshot_always_replaces_witness :
    roomAfterDelivery "a" none (some ⟨"h", ["h"], ["a"], [], [], [], []⟩) =
      some ⟨"h", ["h"], ["a"], [], [], [], []⟩ :=
  delivered_snapshot_always_replaces "a" none
    ⟨"h", ["h"], ["a"], [], [], [], []⟩ (by decide)

/-- C9: whenever the management predicate grants power to an actor who is not
the Host, the target is a plain participant: not a CoHost and not the Host.
In particular a CoHost can never kick another CoHost or the Host. -/
theorem nonhost_manage_implies_plain_target (room : AudioRoom)
    (currentUserId targetUserId : String)
    (hnothost : room.host ≠ currentUserId)
    (hcan : canManageTarget room currentUserId targetUserId = true) :
    targetUserId ∉ room.coHosts ∧ targetUserId ≠ room.host := by
  simp only [canManageTarget, Bool.or_eq_true, Bool.and_eq_true,
    Bool.not_eq_true', decide_eq_true_eq, decide_eq_false_iff_not] at hcan
  rcases hcan with hhost | ⟨⟨_, htco⟩, hthost⟩
  · exact absurd hhost hnothost
  · exact ⟨htco, fun h => hthost (h ▸ rfl)⟩

/-- Witness for C9: a co-host actor granted power over a plain listener. -/
theorem nonhost_manage_implies_plain_target_witness :
    "t" ∉ (⟨"h", ["h", "c"], ["t"], ["c"], [], [], []⟩ : AudioRoom).coHosts ∧
    "t" ≠ (⟨"h", ["h", "c"], ["t"], ["c"], [], [], []⟩ : AudioRoom).host :=
  nonhost_manage_implies_plain_target
    ⟨"h", ["h", "c"], ["t"], ["c"], [], [], []⟩ "c" "t" (by decide) (by decide)

/-- C10 counterexample: the credentials check precedes the parameter checks,
so a GET with a missing `uid` while the app credentials are unset gets 500,
not the claimed 400; and an OPTIONS preflight missing both parameters gets
204, not 400, even with credentials set. No token is built either way. -/
theorem malformed_request_counterexample :
    handler ⟨none, none⟩ ⟨"GET", some "room1", none⟩ true =
      (⟨500, TokenBody.errorMsg "Agora credentials not configured on the server."⟩,
        false) ∧
    (500 : Nat) ≠ 400 ∧
    handler ⟨some "app", some "cert"⟩ ⟨"OPTIONS", none, none⟩ true =
      (⟨204, TokenBody.empty⟩, false) := by
  decide

/-- C10 amended: for every non-OPTIONS request, when either app credential is
unset (or empty) the endpoint answers 500 with an error body and builds no
token; when both credentials are set, a request with a missing/empty
`channelName` or `uid`, or whose `uid` does not parse as an integer, gets 400
with an error body and builds no token. -/
theorem tokenHandler_rejects_malformed (env : ServerEnv) (req : TokenRequest)
    (buildOk : Bool) (hm : (req.method == "OPTIONS") = false) :
    ((strFalsy env.appId || strFalsy env.appCertificate) = true →
      handler env req buildOk =
        (⟨500, TokenBody.errorMsg "Agora credentials not configured on the server."⟩,
          false)) ∧
    ((strFalsy env.appId || strFalsy env.appCertificate) = false →
      ((strFalsy req.channelName || strFalsy req.uid) = true →
        handler env req buildOk =
          (⟨400, TokenBody.errorMsg "channelName and uid are required"⟩, false)) ∧
      ((strFalsy req.channelName || strFalsy req.uid) = false →
        parseInt10 (req.uid.getD "") = none →
        handler env req buildOk =
          (⟨400, TokenBody.errorMsg "uid must be an integer"⟩, false))) := by
  refine ⟨fun hcred => ?_, fun hcred => ⟨fun hparam => ?_, fun hparam hparse => ?_⟩⟩
  · simp [handler, hm, hcred]
  · simp [handler, hm, hcred, hparam]
  · simp [handler, hm, hcred, hparam, hparse]

/-- Witness for the amended C10 at concrete malformed requests. -/
theorem tokenHandler_rejects_malformed_witness :
    handler ⟨none, some "cert"⟩ ⟨"GET", some "room1", some "7"⟩ true =
      (⟨500, TokenBody.errorMsg "Agora credentials not configured on the server."⟩,
        false) ∧
    handler ⟨some "app", some "cert"⟩ ⟨"GET", some "room1", some "x7"⟩ false =
      (⟨400, TokenBody.errorMsg "uid must be an integer"⟩, false) := by
  refine ⟨?_, ?_⟩
  · exact (tokenHandler_rejects_malformed ⟨none, some "cert"⟩
      ⟨"GET", some "room1", some "7"⟩ true (by decide)).1 (by decide)
  · exact ((tokenHandler_rejects_malformed ⟨some "app", some "cert"⟩
      ⟨"GET", some "room1", some "x7"⟩ false (by decide)).2 (by decide)).2
      (by decide) (by decide)
